import Mathlib

/-!
Shallow embedding of `src/stream.rs` of picoquic-rs: the `Stream`/`Context`
pair and its message protocol.

Byte buffers (`Bytes`/`BytesMut`) are modelled as `List Nat`.  The two
internal channels are modelled explicitly: the inbound (engine → consumer)
channel is the `recvMsg` queue stored in the `Context` (the sender side) and
passed as a message list to the `Stream`'s poll; the outbound
(consumer → engine) channel is passed as a pending message list to the
`Context`'s poll loop, with the receiver's closed flag (`send_msg.close()`)
kept in the `Context` state.  Calls into the picoquic engine
(`picoquic_add_to_stream`, `picoquic_reset_stream`, `picoquic_stop_sending`)
are recorded as an `EngineCall` trace; the connection handle, stream id and
error-code arguments that are constant per context are omitted from the
trace.  `error!` log lines have no effect on state and are not modelled.
-/

namespace PicoquicStream

/-- Byte chunks (`Bytes` / `BytesMut` in the source). -/
abbrev Chunk := List Nat

/-- `Message`: propagates information between `Stream` and `Context`
(stream.rs lines 24-34). -/
inductive Message
  /-- Close the `Stream`. -/
  | close
  /-- Recv data. -/
  | recvData (d : Chunk)
  /-- Send data. -/
  | sendData (d : Chunk)
  /-- A propagated failure; the carried error is modelled as a code. -/
  | error (e : Nat)
  /-- Reset the `Stream`. -/
  | reset
  deriving DecidableEq, Repr, BEq

/-- The calls the `Context` makes into the picoquic engine, recorded as a
trace.  `addToStream data setFin` records
`picoquic_add_to_stream(cnx, id, data, len, fin)`; `resetStream` records
`picoquic_reset_stream(cnx, id, 0)`; `stopSending` records
`picoquic_stop_sending(cnx, id, 0)`. -/
inductive EngineCall
  | addToStream (data : Chunk) (setFin : Bool)
  | resetStream
  | stopSending
  deriving DecidableEq, Repr, BEq

/-- `fn is_unidirectional(id: Id) -> bool { id & 2 != 0 }` (line 291). -/
def is_unidirectional (id : Nat) : Bool :=
  id &&& 2 != 0

/-- `pub enum Type` (line 38): a stream is unidirectional or bidirectional.
(The source names this enum `Type`; renamed here to avoid the Lean sort.) -/
inductive StreamType
  | unidirectional
  | bidirectional
  deriving DecidableEq, Repr

/-- `Stream::get_type` (lines 81-87), as a function of the stream id. -/
def get_type (id : Nat) : StreamType :=
  if is_unidirectional id then StreamType.unidirectional
  else StreamType.bidirectional

/-- The state of `Context` (lines 165-176).  `recvMsg` holds the messages
this context has enqueued on the inbound channel (its `recv_msg` sender),
oldest first; `sendClosed` is whether `send_msg.close()` has been called on
the outbound channel's receiver. -/
structure Context where
  recvMsg : List Message := []
  sendClosed : Bool := false
  id : Nat
  finished : Bool := false
  is_client_con : Bool
  data_send : Bool := false
  stop_sending : Bool := false
  deriving DecidableEq, Repr

/-- `Context::is_client_initiated` (lines 286-288): `self.id & 1 == 0`. -/
def Context.is_client_initiated (c : Context) : Bool :=
  c.id &&& 1 == 0

/-- `Context::is_unidirectional_send_allowed` (lines 277-283). -/
def Context.is_unidirectional_send_allowed (c : Context) : Bool :=
  if c.is_client_initiated then c.is_client_con else !c.is_client_con

/-- `Context::reset` (lines 202-207): closes the outbound channel and calls
`picoquic_reset_stream`. -/
def Context.reset (c : Context) : Context × List EngineCall :=
  ({ c with sendClosed := true }, [EngineCall.resetStream])

/-- The callback events distinguished by `Context::recv_data`
(lines 220-228); `dataOnly` stands for any other event value (plain stream
data). -/
inductive CallbackEvent
  | dataOnly
  | streamResetEvent
  | stopSendingEvent
  | streamFinEvent
  deriving DecidableEq, Repr

/-- `Context::recv_data` (lines 209-230). -/
def Context.recv_data (c : Context) (data : Chunk) (event : CallbackEvent) :
    Context :=
  let c :=
    if !data.isEmpty then
      if c.finished then c  -- log only: "received data after being finished"
      else { c with recvMsg := c.recvMsg ++ [Message.recvData data] }
    else c
  match event with
  | CallbackEvent.streamResetEvent =>
      { c with finished := true, recvMsg := c.recvMsg ++ [Message.reset] }
  | CallbackEvent.stopSendingEvent =>
      { c with stop_sending := true, sendClosed := true }
  | CallbackEvent.streamFinEvent =>
      { c with finished := true, recvMsg := c.recvMsg ++ [Message.close] }
  | CallbackEvent.dataOnly => c

/-- `Context::handle_connection_close` (lines 239-241): forwards `Close` on
the inbound channel. -/
def Context.handle_connection_close (c : Context) : Context :=
  { c with recvMsg := c.recvMsg ++ [Message.close] }

/-- `Context::send_data` (lines 243-254). -/
def Context.send_data (c : Context) (data : Chunk) :
    Context × List EngineCall :=
  if is_unidirectional c.id && !c.is_unidirectional_send_allowed then
    (c, [])  -- log only: "tried to send data to incoming unidirectional stream"
  else if !c.stop_sending then
    ({ c with data_send := c.data_send || !data.isEmpty },
      [EngineCall.addToStream data false])
  else
    (c, [])

/-- `Context::close` (lines 256-274). -/
def Context.close (c : Context) : Context × List EngineCall :=
  let c1 : Context :=
    { c with finished := true, stop_sending := true, sendClosed := true }
  let calls1 : List EngineCall :=
    if !is_unidirectional c1.id || !c1.is_unidirectional_send_allowed then
      [EngineCall.stopSending]
    else []
  if c1.data_send then
    (c1, calls1 ++ [EngineCall.addToStream [] true])
  else
    let r := c1.reset
    (r.1, calls1 ++ r.2)

/-- The result of one call to `<Context as Future>::poll`. -/
inductive CtxPoll
  | ready
  | notReady
  | panicked
  deriving DecidableEq, Repr

/-- `<Context as Future>::poll` (lines 299-325): drains the given pending
outbound messages in order.  When the pending list is exhausted, the
channel's receiver yields `Ready(None)` when it has been closed
(`sendClosed`), and `NotReady` otherwise. -/
def Context.pollLoop : Context → List Message → Context × List EngineCall × CtxPoll
  | c, [] =>
    if c.sendClosed then
      (c, [], if c.finished && c.stop_sending then CtxPoll.ready
              else CtxPoll.notReady)
    else (c, [], CtxPoll.notReady)
  | c, Message.reset :: rest =>
    let r := c.reset
    let r2 := Context.pollLoop r.1 rest
    (r2.1, r.2 ++ r2.2.1, r2.2.2)
  | c, Message.close :: _ =>
    let r := c.close
    (r.1, r.2, CtxPoll.ready)
  | c, Message.sendData d :: rest =>
    let r := c.send_data d
    let r2 := Context.pollLoop r.1 rest
    (r2.1, r.2 ++ r2.2.1, r2.2.2)
  | c, Message.recvData _ :: _ => (c, [], CtxPoll.panicked)
  | c, Message.error _ :: rest => Context.pollLoop c rest

/-- The mutable state of `Stream` relevant to the claims (line 54):
the `stream_reset` flag. -/
structure StreamSt where
  stream_reset : Bool := false
  deriving DecidableEq, Repr

/-- `Stream::new` initializes `stream_reset: false` (line 74). -/
def StreamSt.new : StreamSt := {}

/-- `Stream::is_reset` (lines 107-109). -/
def StreamSt.is_reset (s : StreamSt) : Bool :=
  s.stream_reset

/-- The result of one call to `<Stream as FStream>::poll`. -/
inductive SPoll
  /-- `Ok(NotReady)` -/
  | notReady
  /-- `Ok(Ready(Some(d)))` -/
  | item (d : Chunk)
  /-- `Ok(Ready(None))` -/
  | done
  /-- `Err(err)` -/
  | errored (e : Nat)
  /-- the `panic!` arm -/
  | panicked
  deriving DecidableEq, Repr

/-- `<Stream as FStream>::poll` (lines 116-131): reads one message from the
inbound channel's queue `q`; with an empty queue the channel yields
`Ready(None)` when closed and `NotReady` otherwise.  Returns the state, the
remaining queue and the poll outcome. -/
def StreamSt.poll (s : StreamSt) (q : List Message) (closed : Bool) :
    StreamSt × List Message × SPoll :=
  match q with
  | [] => if closed then (s, [], SPoll.done) else (s, [], SPoll.notReady)
  | Message.close :: rest => (s, rest, SPoll.done)
  | Message.recvData d :: rest => (s, rest, SPoll.item d)
  | Message.sendData _ :: rest => (s, rest, SPoll.panicked)
  | Message.error e :: rest => (s, rest, SPoll.errored e)
  | Message.reset :: rest =>
      ({ s with stream_reset := true }, rest, SPoll.done)

/-- Repeatedly polling the `Stream` through a queue of messages, collecting
each poll's outcome. -/
def StreamSt.pollAll (s : StreamSt) : List Message → StreamSt × List SPoll
  | [] => (s, [])
  | m :: rest =>
    let r := s.poll (m :: rest) false
    let r2 := r.1.pollAll rest
    (r2.1, r.2.2 :: r2.2)

/-! ### Helper lemmas -/

/-- `id & 2 != 0` tests exactly bit 1 of the id. -/
lemma is_unidirectional_eq_testBit (id : Nat) :
    is_unidirectional id = id.testBit 1 := by
  have h2 : id &&& 2 = (id.testBit 1).toNat * 2 := by
    simpa using Nat.and_two_pow id 1
  simp only [is_unidirectional, h2]
  cases id.testBit 1 <;> simp

/-- `id & 1 == 0` is the negation of bit 0 of the id. -/
lemma is_client_initiated_eq (c : Context) :
    c.is_client_initiated = !c.id.testBit 0 := by
  rcases Nat.mod_two_eq_zero_or_one c.id with h | h <;>
    simp [Context.is_client_initiated, Nat.and_one_is_mod, Nat.testBit_zero, h]

/-! ### C7 -/

/-- C7: for all stream ids and both connection roles,
`is_unidirectional_send_allowed` returns `true` exactly when (bit 0 of the
id equals 0) iff the connection is a client connection. -/
theorem c7_unidirectional_send_allowed_iff (c : Context) :
    c.is_unidirectional_send_allowed = true ↔
      ((c.id.testBit 0 = false) ↔ c.is_client_con = true) := by
  cases hb : c.id.testBit 0 <;> cases hc : c.is_client_con <;>
    simp [Context.is_unidirectional_send_allowed, is_client_initiated_eq, hb, hc]

/-! ### C8 -/

/-- C8: for all stream ids, `get_type` returns `Unidirectional` iff bit 1
of the id is set, independently of bit 0 (flipping bit 0 never changes the
type). -/
theorem c8_get_type_bit1 (id : Nat) :
    (get_type id = StreamType.unidirectional ↔ id.testBit 1 = true) ∧
    get_type (id ^^^ 1) = get_type id := by
  constructor
  · rw [get_type, is_unidirectional_eq_testBit]
    cases id.testBit 1 <;> simp
  · have h1 : (1 : Nat).testBit 1 = false := by decide
    have hx : (id ^^^ 1).testBit 1 = id.testBit 1 := by
      rw [Nat.testBit_xor, h1, Bool.xor_false]
    rw [get_type, get_type, is_unidirectional_eq_testBit,
      is_unidirectional_eq_testBit, hx]

/-! ### C5 -/

/-- C5: processing `Close` sets `finished` and `stop_sending`; the engine
stop-sending call is issued exactly when the stream is bidirectional or
local unidirectional send is not permitted; a final zero-length fin write
is issued iff data was ever sent, and otherwise a reset is issued
instead. -/
theorem c5_close_behaviour (c : Context) :
    (c.close).1.finished = true ∧ (c.close).1.stop_sending = true ∧
    (EngineCall.stopSending ∈ (c.close).2 ↔
      (!is_unidirectional c.id || !c.is_unidirectional_send_allowed) = true) ∧
    (EngineCall.addToStream [] true ∈ (c.close).2 ↔ c.data_send = true) ∧
    (EngineCall.resetStream ∈ (c.close).2 ↔ c.data_send = false) := by
  obtain ⟨rm, sc, id, fin, icc, ds, ss⟩ := c
  cases ds <;> cases hu : is_unidirectional id <;>
    cases hi : id &&& 1 == 0 <;> cases icc <;>
      simp [Context.close, Context.reset, Context.is_unidirectional_send_allowed,
        Context.is_client_initiated, hu, hi]

/-! ### C6 -/

/-- C6: `Stream::poll` yields the chunk on `RecvData`; end-of-sequence on
`Close` or on a closed, drained channel; the carried error on `Error`;
end-of-sequence with `is_reset() = true` on `Reset`; and panics on
`SendData`. -/
theorem c6_stream_poll_cases (s : StreamSt) (rest : List Message) (d : Chunk)
    (e : Nat) (closed : Bool) :
    s.poll (Message.recvData d :: rest) closed = (s, rest, SPoll.item d) ∧
    s.poll (Message.close :: rest) closed = (s, rest, SPoll.done) ∧
    s.poll [] true = (s, [], SPoll.done) ∧
    s.poll (Message.error e :: rest) closed = (s, rest, SPoll.errored e) ∧
    ((s.poll (Message.reset :: rest) closed).1.is_reset = true ∧
      (s.poll (Message.reset :: rest) closed).2.2 = SPoll.done) ∧
    s.poll (Message.sendData d :: rest) closed = (s, rest, SPoll.panicked) := by
  simp [StreamSt.poll, StreamSt.is_reset]

/-! ### C9 -/

/-- A single `Stream::poll` never clears `stream_reset`. -/
lemma poll_stream_reset_mono (s : StreamSt) (q : List Message) (closed : Bool)
    (h : s.stream_reset = true) : (s.poll q closed).1.stream_reset = true := by
  match q with
  | [] => cases closed <;> simp [StreamSt.poll, h]
  | m :: rest => cases m <;> simp [StreamSt.poll, h]

/-- Any sequence of `Stream::poll`s never clears `stream_reset`. -/
lemma pollAll_stream_reset_mono (s : StreamSt) (msgs : List Message)
    (h : s.stream_reset = true) :
    (s.pollAll msgs).1.stream_reset = true := by
  induction msgs generalizing s with
  | nil => simpa [StreamSt.pollAll] using h
  | cons m rest ih =>
    simp only [StreamSt.pollAll]
    exact ih _ (poll_stream_reset_mono s (m :: rest) false h)

/-- C9: the `stream_reset` flag reported by `is_reset` is monotonic: a new
`Stream` starts with it false, delivery of a `Reset` message sets it, and
once true no later sequence of polls clears it. -/
theorem c9_is_reset_monotonic (s s0 : StreamSt) (msgs rest : List Message)
    (closed : Bool) (h : s.is_reset = true) :
    StreamSt.new.is_reset = false ∧
    (s0.poll (Message.reset :: rest) closed).1.is_reset = true ∧
    (s.pollAll msgs).1.is_reset = true := by
  refine ⟨rfl, by simp [StreamSt.poll, StreamSt.is_reset], ?_⟩
  exact pollAll_stream_reset_mono s msgs h

/-- Witness for C9 at a concrete stream state and message list. -/
theorem c9_is_reset_monotonic_witness :
    ({ stream_reset := true } : StreamSt).is_reset = true ∧
    (StreamSt.new.is_reset = false ∧
      ((StreamSt.new.poll [Message.reset] false).1.is_reset = true) ∧
      ((({ stream_reset := true } : StreamSt).pollAll
          [Message.recvData [1], Message.close]).1.is_reset = true)) :=
  ⟨by decide,
    c9_is_reset_monotonic { stream_reset := true } StreamSt.new
      [Message.recvData [1], Message.close] [] false (by decide)⟩

/-! ### C10 -/

/-- With `stop_sending` set, `Context::send_data` leaves the state unchanged
and makes no engine call. -/
lemma send_data_stopped (c : Context) (hs : c.stop_sending = true)
    (d : Chunk) : c.send_data d = (c, []) := by
  cases h : (is_unidirectional c.id && !c.is_unidirectional_send_allowed) <;>
    simp [Context.send_data, h, hs]

/-- C10: once `stop_sending` is set (as by a peer stop_sending callback),
every `SendData` message drained from the outbound channel is silently
discarded: the state (in particular `data_send`) is unchanged and no engine
call is made. -/
theorem c10_stop_sending_discards (c : Context) (ds : List Chunk) (d0 : Chunk)
    (hs : c.stop_sending = true) :
    ((c.recv_data d0 CallbackEvent.stopSendingEvent).stop_sending = true) ∧
    (Context.pollLoop c (ds.map Message.sendData)).1 = c ∧
    (Context.pollLoop c (ds.map Message.sendData)).1.data_send = c.data_send ∧
    (Context.pollLoop c (ds.map Message.sendData)).2.1 = [] := by
  have hmain : (Context.pollLoop c (ds.map Message.sendData)).1 = c ∧
      (Context.pollLoop c (ds.map Message.sendData)).2.1 = [] := by
    induction ds with
    | nil =>
      cases hsc : c.sendClosed <;> simp [Context.pollLoop, hsc]
    | cons d ds ih =>
      simp [Context.pollLoop, send_data_stopped c hs d, ih]
  refine ⟨?_, hmain.1, by rw [hmain.1], hmain.2⟩
  cases hd : d0.isEmpty <;> cases hf : c.finished <;>
    simp [Context.recv_data, hd, hf]

/-- Witness for C10 at a concrete context and chunk list. -/
theorem c10_stop_sending_discards_witness :
    (({ id := 0, is_client_con := true, stop_sending := true } :
        Context).stop_sending = true) ∧
    ((({ id := 0, is_client_con := true, stop_sending := true } :
        Context).recv_data [7] CallbackEvent.stopSendingEvent).stop_sending
          = true) ∧
    (Context.pollLoop { id := 0, is_client_con := true, stop_sending := true }
        ([[1], [], [2, 3]].map Message.sendData)).1 =
      { id := 0, is_client_con := true, stop_sending := true } ∧
    (Context.pollLoop { id := 0, is_client_con := true, stop_sending := true }
        ([[1], [], [2, 3]].map Message.sendData)).1.data_send = false ∧
    (Context.pollLoop { id := 0, is_client_con := true, stop_sending := true }
        ([[1], [], [2, 3]].map Message.sendData)).2.1 = [] :=
  ⟨by decide,
    c10_stop_sending_discards
      { id := 0, is_client_con := true, stop_sending := true }
      [[1], [], [2, 3]] [7] (by decide)⟩

/-! ### C1 -/

/-- C1 fails on the code: on a fresh `Context`, processing a `Reset` message
calls the engine's reset but leaves `finished` and `stop_sending` false, so
even though the outbound channel is closed (hence reports exhausted) the
future returns `NotReady` instead of resolving. -/
theorem c1_counterexample :
    ((Context.pollLoop { id := 0, is_client_con := true }
        [Message.reset]).2.1 = [EngineCall.resetStream]) ∧
    ((Context.pollLoop { id := 0, is_client_con := true }
        [Message.reset]).1.sendClosed = true) ∧
    ¬ (((Context.pollLoop { id := 0, is_client_con := true }
        [Message.reset]).1.finished = true) ∧
       ((Context.pollLoop { id := 0, is_client_con := true }
        [Message.reset]).1.stop_sending = true)) ∧
    ((Context.pollLoop { id := 0, is_client_con := true }
        [Message.reset]).2.2 = CtxPoll.notReady) := by
  decide

/-- C1 amended: processing a `Reset` message calls the engine's
`reset_stream` and closes the outbound channel, but leaves `finished` and
`stop_sending` unchanged; when the exhausted channel is then observed the
future resolves iff both flags were already set by other events. -/
theorem c1_reset_processing (c : Context) :
    (Context.pollLoop c [Message.reset]).2.1 = [EngineCall.resetStream] ∧
    (Context.pollLoop c [Message.reset]).1.finished = c.finished ∧
    (Context.pollLoop c [Message.reset]).1.stop_sending = c.stop_sending ∧
    (Context.pollLoop c [Message.reset]).1.sendClosed = true ∧
    (Context.pollLoop c [Message.reset]).2.2 =
      (if c.finished && c.stop_sending then CtxPoll.ready
       else CtxPoll.notReady) := by
  simp [Context.pollLoop, Context.reset]

/-! ### C2 -/

/-- Polling the `Stream` through queued data chunks followed by `Close`
yields exactly those chunks, then end-of-sequence. -/
lemma pollAll_recvData_close (ds : List Chunk) (s : StreamSt) :
    s.pollAll (ds.map Message.recvData ++ [Message.close]) =
      (s, ds.map SPoll.item ++ [SPoll.done]) := by
  induction ds generalizing s with
  | nil => simp [StreamSt.pollAll, StreamSt.poll]
  | cons d ds ih => simp [StreamSt.pollAll, StreamSt.poll, ih]

/-- C2 fails on the code: with one data chunk already queued inbound,
`handle_connection_close` appends `Close` behind it, so the `Stream`'s next
poll yields the chunk, not end-of-sequence. -/
theorem c2_counterexample :
    ((StreamSt.new.poll
        ((({ id := 0, is_client_con := true } : Context).recv_data [1]
            CallbackEvent.dataOnly).handle_connection_close.recvMsg)
        false).2.2 = SPoll.item [1]) ∧
    ((StreamSt.new.poll
        ((({ id := 0, is_client_con := true } : Context).recv_data [1]
            CallbackEvent.dataOnly).handle_connection_close.recvMsg)
        false).2.2 ≠ SPoll.done) := by
  decide

/-- C2 amended: after `handle_connection_close()` the paired `Stream`
reaches end-of-sequence once the previously-queued inbound chunks are
drained: polling through the whole queue yields exactly the prior chunks
and then `Ready(None)`. -/
theorem c2_close_after_drain (c : Context) (s : StreamSt) (ds : List Chunk)
    (hq : c.recvMsg = ds.map Message.recvData) :
    s.pollAll c.handle_connection_close.recvMsg =
      (s, ds.map SPoll.item ++ [SPoll.done]) := by
  rw [Context.handle_connection_close, hq]
  exact pollAll_recvData_close ds s

/-- Witness for C2 (amended) at a concrete context and queue. -/
theorem c2_close_after_drain_witness :
    (({ id := 0, is_client_con := true,
        recvMsg := [Message.recvData [1], Message.recvData [2]] } :
          Context).recvMsg = [[1], [2]].map Message.recvData) ∧
    StreamSt.new.pollAll
        ({ id := 0, is_client_con := true,
           recvMsg := [Message.recvData [1], Message.recvData [2]] } :
             Context).handle_connection_close.recvMsg =
      (StreamSt.new, [[1], [2]].map SPoll.item ++ [SPoll.done]) :=
  ⟨by decide,
    c2_close_after_drain
      { id := 0, is_client_con := true,
        recvMsg := [Message.recvData [1], Message.recvData [2]] }
      StreamSt.new [[1], [2]] (by decide)⟩

/-! ### C3 -/

/-- The close sequence always makes at least one engine call. -/
lemma close_calls_ne_nil (c : Context) : (c.close).2 ≠ [] := by
  obtain ⟨rm, sc, id, fin, icc, ds, ss⟩ := c
  cases ds <;> cases hu : is_unidirectional id <;>
    cases hi : id &&& 1 == 0 <;> cases icc <;>
      simp [Context.close, Context.reset, Context.is_unidirectional_send_allowed,
        Context.is_client_initiated, hu, hi]

/-- C3 fails on the code: a `Context` already terminal (finished and
stop_sending set, data sent) that drains a further `Close` message re-runs
the close sequence, re-invoking the engine (stop_sending and a fin write),
contradicting "does not re-invoke any engine call". -/
theorem c3_counterexample :
    (({ id := 0, is_client_con := true, finished := true, stop_sending := true,
        data_send := true, sendClosed := true } : Context).finished = true ∧
     ({ id := 0, is_client_con := true, finished := true, stop_sending := true,
        data_send := true, sendClosed := true } : Context).stop_sending
          = true) ∧
    (Context.pollLoop
        { id := 0, is_client_con := true, finished := true, stop_sending := true,
          data_send := true, sendClosed := true } [Message.close]).2.1 =
      [EngineCall.stopSending, EngineCall.addToStream [] true] ∧
    (Context.pollLoop
        { id := 0, is_client_con := true, finished := true, stop_sending := true,
          data_send := true, sendClosed := true } [Message.close]).2.1 ≠ [] := by
  decide

/-- C3 amended: processing a further `Close` on an already-terminal
`Context` does not panic and reports completion immediately, but it does
re-run the close sequence, making at least one engine call again. -/
theorem c3_reclose (c : Context) (_h1 : c.finished = true)
    (_h2 : c.stop_sending = true) :
    (Context.pollLoop c [Message.close]).2.2 = CtxPoll.ready ∧
    (Context.pollLoop c [Message.close]).2.1 = (c.close).2 ∧
    (c.close).2 ≠ [] :=
  ⟨by simp [Context.pollLoop], by simp [Context.pollLoop],
    close_calls_ne_nil c⟩

/-- Witness for C3 (amended) at a concrete terminal context. -/
theorem c3_reclose_witness :
    (({ id := 4, is_client_con := false, finished := true, stop_sending := true,
        data_send := true, sendClosed := true } : Context).finished = true) ∧
    (({ id := 4, is_client_con := false, finished := true, stop_sending := true,
        data_send := true, sendClosed := true } : Context).stop_sending
          = true) ∧
    ((Context.pollLoop
        { id := 4, is_client_con := false, finished := true, stop_sending := true,
          data_send := true, sendClosed := true } [Message.close]).2.2 =
        CtxPoll.ready ∧
     (Context.pollLoop
        { id := 4, is_client_con := false, finished := true, stop_sending := true,
          data_send := true, sendClosed := true } [Message.close]).2.1 =
        (({ id := 4, is_client_con := false, finished := true,
            stop_sending := true, data_send := true, sendClosed := true } :
              Context).close).2 ∧
     (({ id := 4, is_client_con := false, finished := true, stop_sending := true,
         data_send := true, sendClosed := true } : Context).close).2 ≠ []) :=
  ⟨by decide, by decide,
    c3_reclose
      { id := 4, is_client_con := false, finished := true, stop_sending := true,
        data_send := true, sendClosed := true } (by decide) (by decide)⟩

/-! ### C4 -/

/-- Draining `SendData` chunks followed by `Close` on an open, sendable
context: each chunk is forwarded with `set_fin = false`, `data_send`
accumulates non-emptiness, and the trailing `Close` runs the close
sequence and resolves the future. -/
lemma pollLoop_send_then_close (ds : List Chunk) (c : Context)
    (hs : c.stop_sending = false)
    (hu : (is_unidirectional c.id && !c.is_unidirectional_send_allowed)
      = false) :
    Context.pollLoop c (ds.map Message.sendData ++ [Message.close]) =
      (({ c with data_send :=
            c.data_send || ds.any (fun d => !d.isEmpty) }).close.1,
       ds.map (fun d => EngineCall.addToStream d false) ++
         ({ c with data_send :=
             c.data_send || ds.any (fun d => !d.isEmpty) }).close.2,
       CtxPoll.ready) := by
  induction ds generalizing c with
  | nil => simp [Context.pollLoop]
  | cons d ds ih =>
    have hu' : (is_unidirectional
          ({ c with data_send := c.data_send || !d.isEmpty } : Context).id &&
        !({ c with data_send := c.data_send || !d.isEmpty } :
            Context).is_unidirectional_send_allowed) = false := by
      simpa [Context.is_unidirectional_send_allowed,
        Context.is_client_initiated] using hu
    have hrec := ih { c with data_send := c.data_send || !d.isEmpty } hs hu'
    rw [hs] at hrec
    simp [Context.pollLoop, Context.send_data, hu, hs, hrec, Bool.or_assoc]

/-- C4: if the `Context` is in the open sendable state (no stop-sending, not
a receive-only unidirectional stream) and drains a sequence of `SendData`
chunks at least one of which is non-empty — i.e. at least one send was
accepted and forwarded to the engine — followed by the `Close` from the
`Stream`'s drop, then the engine receives a zero-length `set_fin = true`
write and `reset_stream` is never invoked. -/
theorem c4_drop_after_send (c : Context) (ds : List Chunk)
    (hs : c.stop_sending = false)
    (hu : (is_unidirectional c.id && !c.is_unidirectional_send_allowed)
      = false)
    (hne : ∃ d ∈ ds, d ≠ []) :
    EngineCall.resetStream ∉
      (Context.pollLoop c (ds.map Message.sendData ++ [Message.close])).2.1 ∧
    EngineCall.addToStream [] true ∈
      (Context.pollLoop c (ds.map Message.sendData ++ [Message.close])).2.1 ∧
    (Context.pollLoop c (ds.map Message.sendData ++ [Message.close])).2.2 =
      CtxPoll.ready := by
  have hb : ds.any (fun d => !d.isEmpty) = true := by
    rw [List.any_eq_true]
    obtain ⟨d, hd, hdne⟩ := hne
    refine ⟨d, hd, ?_⟩
    cases d with
    | nil => exact absurd rfl hdne
    | cons a l => rfl
  rw [pollLoop_send_then_close ds c hs hu]
  have hclose2 : ({ c with data_send :=
        c.data_send || ds.any (fun d => !d.isEmpty) } : Context).close.2 =
      (if (!is_unidirectional c.id || !c.is_unidirectional_send_allowed) then
        [EngineCall.stopSending] else []) ++ [EngineCall.addToStream [] true] := by
    simp [Context.close, Context.is_unidirectional_send_allowed,
      Context.is_client_initiated, hb]
  refine ⟨?_, ?_, rfl⟩
  · rw [hclose2]
    cases hcond : (!is_unidirectional c.id ||
        !c.is_unidirectional_send_allowed) <;> simp
  · rw [hclose2]
    simp

/-- Witness for C4 at a concrete context and chunk list. -/
theorem c4_drop_after_send_witness :
    (({ id := 0, is_client_con := true } : Context).stop_sending = false) ∧
    ((is_unidirectional ({ id := 0, is_client_con := true } : Context).id &&
        !({ id := 0, is_client_con := true } :
            Context).is_unidirectional_send_allowed) = false) ∧
    (([1] : Chunk) ∈ [[1]] ∧ ([1] : Chunk) ≠ []) ∧
    (EngineCall.resetStream ∉
      (Context.pollLoop { id := 0, is_client_con := true }
        ([[1]].map Message.sendData ++ [Message.close])).2.1 ∧
     EngineCall.addToStream [] true ∈
      (Context.pollLoop { id := 0, is_client_con := true }
        ([[1]].map Message.sendData ++ [Message.close])).2.1 ∧
     (Context.pollLoop { id := 0, is_client_con := true }
        ([[1]].map Message.sendData ++ [Message.close])).2.2 =
       CtxPoll.ready) :=
  ⟨by decide, by decide, ⟨by decide, by decide⟩,
    c4_drop_after_send { id := 0, is_client_con := true } [[1]]
      (by decide) (by decide) ⟨[1], by decide, by decide⟩⟩

end PicoquicStream
